import Mathlib

/-!
Shallow embedding of ArduCopter's Auto flight-mode controller
(`src/ArduCopter/mode_auto.cpp`) and proofs about its state machines.

Modelling conventions:
* C++ `float`/`double` values are modelled as exact rationals (`ℚ`);
* 32-bit signed integers (`int32_t`) are modelled as `Int`;
* millisecond timestamps (`uint32_t`, from `millis()`) are modelled as `Nat`,
  assuming no 32-bit wraparound within one mission (so unsigned `a - b`
  is `Nat` truncated subtraction with `a ≥ b` in all reachable uses);
* calls into external collaborators (wp_nav, pos_control, attitude_control,
  gripper, GCS, ...) are modelled either as boolean/number inputs in an
  environment record `Env`, or as emitted `Effect`s when the call is a
  command to a downstream controller.
-/

set_option maxHeartbeats 1000000
set_option linter.unusedVariables false

namespace ArduAuto

/-- `ModeAuto::SubMode` enumeration. -/
inductive SubMode
  | TAKEOFF
  | WP
  | LAND
  | RTL
  | CIRCLE_MOVE_TO_EDGE
  | CIRCLE
  | NAVGUIDED
  | LOITER
  | LOITER_TO_ALT
  | NAV_PAYLOAD_PLACE
  | NAV_ATTITUDE_TIME
  | NAV_SCRIPT_TIME
  deriving DecidableEq, Repr

/-- `AutoYaw::Mode` (the subset used by `mode_auto.cpp`); `DEFAULT_MODE`
stands for the result of `auto_yaw.set_mode_to_default(false)`. -/
inductive YawMode
  | HOLD
  | FIXED
  | ROI
  | CIRCLE
  | DEFAULT_MODE
  deriving DecidableEq, Repr

/-- `Location::AltFrame`. -/
inductive AltFrame
  | ABSOLUTE
  | ABOVE_HOME
  | ABOVE_ORIGIN
  | ABOVE_TERRAIN
  deriving DecidableEq, Repr

/-- A `Location`: lat/lng in 1e-7 degrees, alt in cm within `frame`. -/
structure Location where
  lat : Int
  lng : Int
  alt : Int
  frame : AltFrame
  deriving DecidableEq, Repr

/-- Mode::State used by the NAV_LAND handlers (`ModeAuto::state`). -/
inductive LandState
  | FlyToLocation
  | Descending
  deriving DecidableEq, Repr

/-- `PayloadPlace::State`. -/
inductive PPState
  | FlyToLocation
  | Descent_Start
  | Descent
  | Release
  | Releasing
  | Delay
  | Ascent_Start
  | Ascent
  | Done
  deriving DecidableEq, Repr

/-- Position of a `PayloadPlace::State` in the documented linear order. -/
def PPState.idx : PPState → Nat
  | .FlyToLocation => 0
  | .Descent_Start => 1
  | .Descent => 2
  | .Release => 3
  | .Releasing => 4
  | .Delay => 5
  | .Ascent_Start => 6
  | .Ascent => 7
  | .Done => 8

/-- The `PayloadPlace` sub-controller's mutable fields. -/
structure PayloadPlace where
  state : PPState
  descent_established_time_ms : Nat
  descent_start_altitude_cm : ℚ
  descent_speed_cms : ℚ
  descent_thrust_level : ℚ
  place_start_time_ms : Nat
  descent_max_cm : ℚ
  deriving DecidableEq, Repr

/-- `ModeAuto::loiter_to_alt` state (`LoiterToAlt` struct).
`alt` and `alt_error_cm` hold whole centimetres (the C float `alt_error_cm`
only ever stores the difference of two `int32_t` altitudes). -/
structure LoiterToAltState where
  alt : Int
  reached_destination_xy : Bool
  loiter_start_done : Bool
  reached_alt : Bool
  alt_error_cm : Int
  deriving DecidableEq, Repr

/-- `ModeAuto::desired_speed_override` (m/s values; 0 means unset). -/
structure SpeedOverride where
  xy : ℚ
  up : ℚ
  down : ℚ
  deriving DecidableEq, Repr

/-- The dispatcher state owned by `ModeAuto` that the claims touch. -/
structure AutoState where
  _mode : SubMode
  auto_RTL : Bool
  yaw_mode : YawMode
  desired_speed_override : SpeedOverride
  waiting_to_start : Bool
  loiter_time : Nat
  loiter_time_max : Nat
  loiter_to_alt : LoiterToAltState
  circle_last_num_complete : ℚ
  land_state : LandState
  condition_start : Nat
  condition_value : Int
  nav_delay_time_start_ms : Nat
  nav_delay_time_max_ms : Nat
  nav_script_done : Bool
  nav_script_start_ms : Nat
  nav_script_timeout_s : Nat
  nav_att_start_ms : Nat
  payload : PayloadPlace

/-- Commands to downstream controllers emitted by a tick function.
`safeGroundHandling` is `Mode::make_safe_ground_handling()` — the
zero/minimal-output ground-idle state. -/
inductive Effect
  | safeGroundHandling
  | setSpoolThrottleUnlimited
  | updateWpNav
  | updateCircleNav
  | updateUController
  | inputThrustVectorHeading
  | landRunNormalOrPrecland
  | landRunHorizontalControl
  | setPosTargetUFromClimbRate
  | inputEulerAngleRollPitchYaw
  | landAtClimbRate (rate_cms : ℚ) (ignore_descent_limit : Bool)
  | inputPosVelAccelU
  | softenForLandingNE
  | externAutoTakeoffRun
  | externRtlRun
  | externGuidedRun
  | setAutoArmed
  deriving DecidableEq, Repr

/-- External inputs read by the embedded functions.  Each field is one
narrow read of a collaborator (AHRS, wp_nav, pos_control, mission,
gripper, rangefinder, parameters); oracles for calls whose implementation
lives outside this file are function-valued fields. -/
structure Env where
  flightmode_is_auto : Bool
  disarmed_or_landed : Bool
  interlock : Bool
  now_ms : Nat
  mission_present : Bool
  motors_armed : Bool
  land_complete : Bool
  land_complete_maybe : Bool
  mission_starts_with_takeoff : Bool
  reached_wp_destination : Bool
  reached_wp_NE : Bool
  current_lat : Int
  current_lng : Int
  current_alt : Int
  pos_estimate_z_cm : ℚ
  terrain_offset_cm : Option ℚ
  alt_conv : Location → AltFrame → Option Int
  set_wp_destination_ok : Location → Bool
  wp_yaw_behavior_none : Bool
  handler_default_loc : Location
  auto_takeoff_complete : Bool
  spool_ground_idle : Bool
  continue_after_land : Bool
  rtl_state_complete : Bool
  rtl_state_final : Bool
  guided_limit_check : Bool
  yaw_reached_fixed : Bool
  wp_distance_m : ℚ
  angle_total_rad : ℚ
  option_takeoff_no_throttle : Bool
  gripper_valid : Bool
  gripper_released : Bool
  thrust_level : ℚ
  pos_desired_U_cm : ℚ
  vel_desired_z : ℚ
  pldp_descent_speed_ms : ℚ
  land_speed : ℚ
  wpnav_speed_down_cms : ℚ
  pldp_thrust_placed_fraction : ℚ
  pldp_range_finder_maximum_m : ℚ
  rangefinder_enabled : Bool
  rangefinder_alt_ok : Bool
  rangefinder_glitch_count : Int
  rangefinder_alt_cm : ℚ
  pldp_delay_s : ℚ
  max_speed_up_cms : ℚ
  max_accel_U_cmss : ℚ
  dist_to_edge_cm : ℚ
  dist_to_center_cm : ℚ
  circle_radius_cm : ℚ

/-- C++ float-to-`int32_t` conversion: truncation toward zero. -/
def floatToInt32 (q : ℚ) : Int :=
  if 0 ≤ q then ⌊q⌋ else -⌊-q⌋

/-- `M_2PI` as the exact rational value used for the revolution count;
real arithmetic is modelled over `ℚ` with this fixed positive constant. -/
def M_2PI : ℚ := 6283185307179586 / 1000000000000000

/-- `descent_thrust_cal_duration_ms` local constant of `PayloadPlace::run`. -/
def descent_thrust_cal_duration_ms : Nat := 2000

/-- `placed_check_duration_ms` local constant of `PayloadPlace::run`. -/
def placed_check_duration_ms : Nat := 500

/-- `PayloadPlace::start_descent()` — controller re-init effects are
external; the state-machine effect is `state = Descent_Start`. -/
def ppStartDescent (s : PayloadPlace) : PayloadPlace :=
  { s with state := .Descent_Start }

/-- First block of `PayloadPlace::run`: if we might be landed, soften the
position target and, from `Descent`, release immediately. -/
def ppLandedBlock (s : PayloadPlace) (e : Env) : PayloadPlace :=
  if e.land_complete || e.land_complete_maybe then
    match s.state with
    | .Descent => { s with state := .Release }
    | _ => s
  else s

/-- Second block of `PayloadPlace::run`: manual gripper release aborts. -/
def ppGripperBlock (s : PayloadPlace) (e : Env) : PayloadPlace :=
  if e.gripper_valid && e.gripper_released then
    match s.state with
    | .FlyToLocation | .Descent_Start =>
        { s with descent_start_altitude_cm := e.pos_desired_U_cm, state := .Done }
    | .Descent => { s with state := .Release }
    | _ => s
  else s

/-- `case State::Ascent` body of the main switch. -/
def ppAscentCase (s : PayloadPlace) (e : Env) : PayloadPlace :=
  let vel_threshold_fraction : ℚ := 1/10
  let stop_distance : ℚ :=
    1/2 * (vel_threshold_fraction * e.max_speed_up_cms)^2 / e.max_accel_U_cmss
  if s.descent_start_altitude_cm - stop_distance ≤ e.pos_desired_U_cm then
    { s with state := .Done }
  else s

/-- `case State::Ascent_Start` body (sets `state = Ascent` and falls
through into the `Ascent` case). -/
def ppAscentStartCase (s : PayloadPlace) (e : Env) : PayloadPlace :=
  ppAscentCase { s with state := .Ascent } e

/-- `case State::Delay` body (falls through to `Ascent_Start` once the
post-release delay has elapsed). -/
def ppDelayCase (s : PayloadPlace) (e : Env) : PayloadPlace :=
  if ((e.now_ms - s.place_start_time_ms : Nat) : ℚ) <
      (placed_check_duration_ms : ℚ) + e.pldp_delay_s * 1000 then
    s
  else ppAscentStartCase s e

/-- `case State::Releasing` body (falls through to `Delay` once the
gripper reports released, or immediately when no gripper is fitted). -/
def ppReleasingCase (s : PayloadPlace) (e : Env) : PayloadPlace :=
  if e.gripper_valid && !e.gripper_released then s
  else ppDelayCase { s with state := .Delay } e

/-- `case State::Release` body: re-init the vertical controller
(external effect) and command the gripper; without a valid gripper skip
straight to `Delay`. -/
def ppReleaseCase (s : PayloadPlace) (e : Env) : PayloadPlace :=
  if e.gripper_valid then { s with state := .Releasing }
  else { s with state := .Delay }

/-- `case State::Descent` body: max-descent abort, descent-rate wait,
thrust calibration window, thrust threshold, rangefinder gating and the
500 ms touchdown confirmation. -/
def ppDescentCase (s : PayloadPlace) (e : Env) : PayloadPlace :=
  if s.descent_max_cm ≠ 0 ∧
      s.descent_max_cm < s.descent_start_altitude_cm - e.pos_desired_U_cm then
    { s with state := .Ascent_Start }
  else if -(95/100 : ℚ) * s.descent_speed_cms < e.vel_desired_z then
    { s with descent_established_time_ms := e.now_ms }
  else if (e.now_ms - s.descent_established_time_ms : Nat) <
      descent_thrust_cal_duration_ms then
    { s with descent_thrust_level := min s.descent_thrust_level e.thrust_level,
             place_start_time_ms := e.now_ms }
  else if e.pldp_thrust_placed_fraction * s.descent_thrust_level < e.thrust_level then
    { s with place_start_time_ms := e.now_ms }
  else if 0 < e.pldp_range_finder_maximum_m ∧ ¬e.rangefinder_enabled then
    { s with state := .Ascent_Start }
  else if 0 < e.pldp_range_finder_maximum_m ∧ e.rangefinder_alt_ok ∧
      e.rangefinder_glitch_count = 0 ∧
      e.pldp_range_finder_maximum_m * 100 < e.rangefinder_alt_cm then
    { s with place_start_time_ms := e.now_ms }
  else if placed_check_duration_ms < (e.now_ms - s.place_start_time_ms : Nat) then
    { s with state := .Release }
  else s

/-- `case State::Descent_Start` body (initialises the descent fields and
falls through into the `Descent` case). -/
def ppDescentStartCase (s : PayloadPlace) (e : Env) : PayloadPlace :=
  let s1 : PayloadPlace :=
    { s with
      descent_established_time_ms := e.now_ms,
      descent_start_altitude_cm := e.pos_desired_U_cm,
      descent_speed_cms :=
        min (if 0 < e.pldp_descent_speed_ms then e.pldp_descent_speed_ms * 100
             else |e.land_speed|) e.wpnav_speed_down_cms,
      descent_thrust_level := 1,
      state := .Descent }
  ppDescentCase s1 e

/-- The main `switch (state)` of `PayloadPlace::run`, with the C
fallthrough chains made explicit. -/
def ppMainSwitch (s : PayloadPlace) (e : Env) : PayloadPlace :=
  match s.state with
  | .FlyToLocation => if e.reached_wp_destination then ppStartDescent s else s
  | .Descent_Start => ppDescentStartCase s e
  | .Descent => ppDescentCase s e
  | .Release => ppReleaseCase s e
  | .Releasing => ppReleasingCase s e
  | .Delay => ppDelayCase s e
  | .Ascent_Start => ppAscentStartCase s e
  | .Ascent => ppAscentCase s e
  | .Done => s

/-- Control-output effects of the final `switch (state)` of
`PayloadPlace::run` plus the trailing `update_U_controller()`. -/
def ppFinalEffects (s : PayloadPlace) : List Effect :=
  (match s.state with
   | .FlyToLocation =>
       [.setSpoolThrottleUnlimited, .updateWpNav, .updateUController,
        .inputThrustVectorHeading]
   | .Descent_Start | .Descent =>
       [.landRunHorizontalControl, .landAtClimbRate (-s.descent_speed_cms) true]
   | .Release | .Releasing | .Delay | .Ascent_Start =>
       [.landRunHorizontalControl, .landAtClimbRate 0 false]
   | .Ascent | .Done =>
       [.landRunHorizontalControl, .inputPosVelAccelU]) ++ [.updateUController]

/-- `PayloadPlace::run()`: early safe-ground-handling exit, then the
land-detect block, the gripper block, the main switch, and the final
control-output switch.  In the `FlyToLocation` output case the source
calls `ModeAuto::wp_run()`, whose armed branch is the first effect list
of `ppFinalEffects`. -/
def PayloadPlace.runFull (s : PayloadPlace) (e : Env) : PayloadPlace × List Effect :=
  if e.disarmed_or_landed then (s, [.safeGroundHandling])
  else
    let s3 := ppMainSwitch (ppGripperBlock (ppLandedBlock s e) e) e
    (s3, [.setSpoolThrottleUnlimited] ++
      (if e.land_complete || e.land_complete_maybe then [.softenForLandingNE] else []) ++
      ppFinalEffects s3)

/-- `PayloadPlace::verify()`. -/
def PayloadPlace.verify (s : PayloadPlace) : Bool :=
  match s.state with
  | .Done => true
  | _ => false

/-- `ModeAuto::wp_run()` (control-output effects).  Also the tick of
`CIRCLE_MOVE_TO_EDGE`. -/
def wp_run (e : Env) : List Effect :=
  if e.disarmed_or_landed then [.safeGroundHandling]
  else [.setSpoolThrottleUnlimited, .updateWpNav, .updateUController,
        .inputThrustVectorHeading]

/-- `ModeAuto::land_run()`. -/
def land_run (e : Env) : List Effect :=
  if e.disarmed_or_landed then [.safeGroundHandling]
  else [.setSpoolThrottleUnlimited, .landRunNormalOrPrecland]

/-- `ModeAuto::rtl_run()` delegates to the external RTL flight mode. -/
def rtl_run : List Effect := [.externRtlRun]

/-- `ModeAuto::circle_run()`.  Note: the source has no
disarmed-or-landed guard here. -/
def circle_run (e : Env) : List Effect :=
  [.updateCircleNav, .updateUController, .inputThrustVectorHeading]

/-- `ModeAuto::nav_guided_run()` delegates to the external Guided mode. -/
def nav_guided_run : List Effect := [.externGuidedRun]

/-- `ModeAuto::loiter_run()`. -/
def loiter_run (e : Env) : List Effect :=
  if e.disarmed_or_landed then [.safeGroundHandling]
  else [.setSpoolThrottleUnlimited, .updateWpNav, .updateUController,
        .inputThrustVectorHeading]

/-- `ModeAuto::takeoff_run()` delegates to the shared `auto_takeoff`
controller (external to this file). -/
def takeoff_run (e : Env) : List Effect :=
  (if e.option_takeoff_no_throttle then [.setAutoArmed] else []) ++
    [.externAutoTakeoffRun]

/-- `ModeAuto::nav_attitude_time_run()`. -/
def nav_attitude_time_run (e : Env) : List Effect :=
  if e.disarmed_or_landed || !e.interlock then [.safeGroundHandling]
  else [.inputEulerAngleRollPitchYaw, .setPosTargetUFromClimbRate,
        .updateUController]

/-- `ModeAuto::loiter_to_alt_run()`: waypoint phase until horizontal
arrival, then the sticky reached-altitude check and vertical closure. -/
def loiter_to_alt_run (s : AutoState) (e : Env) : AutoState × List Effect :=
  if e.disarmed_or_landed || !e.interlock then (s, [.safeGroundHandling])
  else
    let lta0 := s.loiter_to_alt
    let lta1 := if lta0.reached_destination_xy then lta0
                else { lta0 with reached_destination_xy := e.reached_wp_NE }
    if ¬lta1.reached_destination_xy then
      ({ s with loiter_to_alt := lta1 }, wp_run e)
    else
      let lta2 := if lta1.loiter_start_done then lta1
                  else { lta1 with loiter_start_done := true }
      let alt_error_cm : Int := e.current_alt - lta2.alt
      let lta3 :=
        if |alt_error_cm| < 5 then { lta2 with reached_alt := true }
        else if alt_error_cm * lta2.alt_error_cm < 0 then
          { lta2 with reached_alt := true }
        else lta2
      ({ s with loiter_to_alt := { lta3 with alt_error_cm := alt_error_cm } },
       [.landRunHorizontalControl, .setPosTargetUFromClimbRate, .updateUController])

/-- The per-submode dispatch switch of `ModeAuto::run()`. -/
def runTick (s : AutoState) (e : Env) : AutoState × List Effect :=
  match s._mode with
  | .TAKEOFF => (s, takeoff_run e)
  | .WP | .CIRCLE_MOVE_TO_EDGE => (s, wp_run e)
  | .LAND => (s, land_run e)
  | .RTL => (s, rtl_run)
  | .CIRCLE => (s, circle_run e)
  | .NAVGUIDED | .NAV_SCRIPT_TIME => (s, nav_guided_run)
  | .LOITER => (s, loiter_run e)
  | .LOITER_TO_ALT => loiter_to_alt_run s e
  | .NAV_PAYLOAD_PLACE =>
      let r := PayloadPlace.runFull s.payload e
      ({ s with payload := r.1 }, r.2)
  | .NAV_ATTITUDE_TIME => (s, nav_attitude_time_run e)

/-- `ModeAuto::set_submode` (the EKF-failsafe recheck on leaving
`NAV_ATTITUDE_TIME` is an external side effect). -/
def set_submode (s : AutoState) (m : SubMode) : AutoState :=
  if m = s._mode then s else { s with _mode := m }

/-- `ModeAuto::init(ignore_checks)`.  External effects (waypoint
controller init, guided-limit clear, precland init, GCS text) are not
part of the modelled state. -/
def ModeAuto_init (s : AutoState) (e : Env) (ignore_checks : Bool) :
    Bool × AutoState :=
  let s0 := { s with auto_RTL := false }
  if e.mission_present || ignore_checks then
    if e.motors_armed && e.land_complete && !e.mission_starts_with_takeoff then
      (false, s0)
    else
      let s1 := { s0 with _mode := .LOITER }
      let s2 := if s1.yaw_mode = .ROI then { s1 with yaw_mode := .HOLD } else s1
      (true, { s2 with desired_speed_override := ⟨0, 0, 0⟩,
                       waiting_to_start := true })
  else (false, s0)

/-- The mission command types dispatched by `start_command` /
`verify_command`; `UNKNOWN n` stands for any other MAVLink command id. -/
inductive MavCmd
  | NAV_VTOL_TAKEOFF
  | NAV_TAKEOFF
  | NAV_WAYPOINT
  | NAV_VTOL_LAND
  | NAV_LAND
  | NAV_PAYLOAD_PLACE
  | NAV_LOITER_UNLIM
  | NAV_LOITER_TURNS
  | NAV_LOITER_TIME
  | NAV_LOITER_TO_ALT
  | NAV_RETURN_TO_LAUNCH
  | NAV_SPLINE_WAYPOINT
  | NAV_GUIDED_ENABLE
  | NAV_DELAY
  | NAV_SCRIPT_TIME
  | NAV_ATTITUDE_TIME
  | CONDITION_DELAY
  | CONDITION_DISTANCE
  | CONDITION_YAW
  | DO_CHANGE_SPEED
  | DO_SET_HOME
  | DO_SET_ROI_LOCATION
  | DO_SET_ROI_NONE
  | DO_SET_ROI
  | DO_MOUNT_CONTROL
  | DO_GUIDED_LIMITS
  | DO_FENCE_ENABLE
  | DO_WINCH
  | DO_RETURN_PATH_START
  | DO_LAND_START
  | UNKNOWN (n : Nat)
  deriving DecidableEq, Repr

/-- The slice of `AP_Mission::Mission_Command` read by the embedded
handlers.  `loiter_turns` is `cmd.get_loiter_turns()`; that accessor is
implemented in AP_Mission (outside this repository excerpt) so it is
carried as a field.  Modelled from the spec: the requested number of
turns of a Circle command. -/
structure Cmd where
  id : MavCmd
  p1 : Nat
  index : Nat
  content_loc : Location
  type_specific_bits : Nat
  loiter_turns : ℚ
  attitude_time_sec : Nat
  loiter_ccw : Bool
  deriving Repr

/-- `ModeAuto::loc_from_cmd`: return the command's location with zero
lat/lng (jointly) and zero alt (separately) inherited from
`default_loc`.  `conv` is the `Location::get_alt_cm` frame-conversion
oracle (modelled from the spec: conversion to a target frame may fail
when terrain data is absent); `copy_alt_from` copies both the altitude
and its frame. -/
def loc_from_cmd (cmd_loc default_loc : Location)
    (conv : Location → AltFrame → Option Int) : Location :=
  let ret := cmd_loc
  let ret := if ret.lat = 0 ∧ ret.lng = 0 then
               { ret with lat := default_loc.lat, lng := default_loc.lng }
             else ret
  if ret.alt = 0 then
    match conv default_loc ret.frame with
    | some default_alt => { ret with alt := default_alt }
    | none => { ret with alt := default_loc.alt, frame := default_loc.frame }
  else ret

/-- `ModeAuto::wp_start(dest)`: set the waypoint destination (failure is
the oracle `set_wp_destination_ok`, i.e. missing terrain data), then the
yaw-default rule and `set_submode(WP)`.  Waypoint-controller speed
re-initialisation is an external effect. -/
def wp_start (s : AutoState) (e : Env) (dest : Location) : Bool × AutoState :=
  if ¬e.set_wp_destination_ok dest then (false, s)
  else
    let s1 := if s.yaw_mode ≠ .ROI ∧
                  ¬(s.yaw_mode = .FIXED ∧ e.wp_yaw_behavior_none) then
                { s with yaw_mode := .DEFAULT_MODE }
              else s
    (true, set_submode s1 .WP)

/-- `ModeAuto::do_loiter_unlimited(cmd)`.  `e.handler_default_loc` is
the default location the handler computes (current location with
position-controller offsets subtracted, or the previous waypoint
destination when already reached — both external reads). -/
def do_loiter_unlimited (cmd : Cmd) (s : AutoState) (e : Env) : AutoState :=
  let target_loc := loc_from_cmd cmd.content_loc e.handler_default_loc e.alt_conv
  (wp_start s e target_loc).2

/-- The target location whose altitude `do_loiter_to_alt` converts to
the above-home frame. -/
def lta_target_loc (cmd : Cmd) (e : Env) : Location :=
  let t := cmd.content_loc
  if t.lat = 0 ∧ t.lng = 0 then
    { t with lat := e.current_lat, lng := e.current_lng }
  else t

/-- `ModeAuto::do_loiter_to_alt(cmd)`: loiter-unlimited start, then
resolve the target altitude to above-home; on failure mark the command
complete (both reached flags) and return without entering the
`LOITER_TO_ALT` submode. -/
def do_loiter_to_alt (cmd : Cmd) (s : AutoState) (e : Env) : AutoState :=
  let s1 := do_loiter_unlimited cmd s e
  match e.alt_conv (lta_target_loc cmd e) .ABOVE_HOME with
  | none =>
      { s1 with loiter_to_alt :=
          { s1.loiter_to_alt with reached_destination_xy := true,
                                  reached_alt := true } }
  | some a =>
      let s2 := { s1 with loiter_to_alt :=
          { alt := a, reached_destination_xy := false,
            loiter_start_done := false, reached_alt := false,
            alt_error_cm := 0 } }
      set_submode s2 .LOITER_TO_ALT

/-- The altitude-target computation of `ModeAuto::takeoff_start`:
returns `(alt_target_cm, alt_target_terrain)` after the frame selection,
the terrain fallback and the minimum-climb clamp.  `dest_loc` is the
command's location; the horizontal substitution of the current lat/lng
does not affect the altitude oracle's failure, which is what the `none`
branch models. -/
def takeoff_start_target (dest_loc : Location) (e : Env) : Int × Bool :=
  if dest_loc.frame = .ABOVE_TERRAIN ∧ e.terrain_offset_cm.isSome then
    let t := e.terrain_offset_cm.getD 0
    let current_alt_cm := e.pos_estimate_z_cm - t
    let alt_target_min_cm :=
      floatToInt32 (current_alt_cm + (if e.land_complete then 100 else 0))
    (max dest_loc.alt alt_target_min_cm, true)
  else
    let current_alt_cm := e.pos_estimate_z_cm
    let dest := { dest_loc with lat := e.current_lat, lng := e.current_lng }
    let alt_target_cm :=
      match e.alt_conv dest .ABOVE_ORIGIN with
      | some a => a
      | none => floatToInt32 (current_alt_cm + dest.alt)
    let alt_target_min_cm :=
      floatToInt32 (current_alt_cm + (if e.land_complete then 100 else 0))
    (max alt_target_cm alt_target_min_cm, false)

/-- `ModeAuto::circle_start()` (the `circle_nav` re-init is external). -/
def circle_start (s : AutoState) : AutoState :=
  let s1 := if s.yaw_mode ≠ .ROI then { s with yaw_mode := .CIRCLE } else s
  set_submode s1 .CIRCLE

/-- `ModeAuto::circle_movetoedge_start`: fly to the circle edge when
more than 3 m away, otherwise start circling immediately.  `circle_nav`
center/radius/rate writes are external. -/
def circle_movetoedge_start (s : AutoState) (e : Env) : AutoState :=
  if 300 < e.dist_to_edge_cm then
    let s1 :=
      if s.yaw_mode ≠ .ROI then
        if e.circle_radius_cm < e.dist_to_center_cm ∧ 500 < e.dist_to_center_cm then
          { s with yaw_mode := .DEFAULT_MODE }
        else { s with yaw_mode := .HOLD }
      else s
    set_submode s1 .CIRCLE_MOVE_TO_EDGE
  else circle_start s

/-- `ModeAuto::do_circle(cmd)`: enter the move-to-edge (or circle) phase
and reset the completed-revolution bookkeeping to -1. -/
def do_circle (cmd : Cmd) (s : AutoState) (e : Env) : AutoState :=
  let s1 := circle_movetoedge_start s e
  { s1 with circle_last_num_complete := -1 }

/-- `ModeAuto::verify_circle(cmd)`: returns the completion flag, the
updated state and the "starting circle k" notification (if emitted this
poll, `some k`). -/
def verify_circle (cmd : Cmd) (s : AutoState) (e : Env) :
    Bool × AutoState × Option Nat :=
  if s._mode = .CIRCLE_MOVE_TO_EDGE then
    (false, (if e.reached_wp_destination then circle_start s else s), none)
  else
    let turns := cmd.loiter_turns
    let num_circles_completed : ℚ := |e.angle_total_rad / M_2PI|
    if floatToInt32 num_circles_completed ≠ floatToInt32 s.circle_last_num_complete then
      (decide (turns ≤ num_circles_completed),
       { s with circle_last_num_complete := num_circles_completed },
       some ((floatToInt32 num_circles_completed).toNat + 1))
    else
      (decide (turns ≤ num_circles_completed), s, none)

/-- Iterated `verify_circle` polls: the final state, the per-poll
results and the concatenated notifications. -/
def circlePolls (cmd : Cmd) (s : AutoState) : List Env → AutoState × List Bool × List Nat
  | [] => (s, [], [])
  | e :: rest =>
      let r := verify_circle cmd s e
      let rr := circlePolls cmd r.2.1 rest
      (rr.1, r.1 :: rr.2.1,
       (match r.2.2 with | some k => [k] | none => []) ++ rr.2.2)

/-- `ModeAuto::land_start()` restricted to the modelled state (yaw hold
and `set_submode(LAND)`; controller/landing-gear calls are external). -/
def land_start (s : AutoState) : AutoState :=
  set_submode { s with yaw_mode := .HOLD } .LAND

/-- `ModeAuto::verify_land()`. -/
def verify_land (s : AutoState) (e : Env) : Bool × AutoState :=
  match s.land_state with
  | .FlyToLocation =>
      (false,
       if e.reached_wp_destination then
         { (land_start s) with land_state := .Descending }
       else s)
  | .Descending =>
      let retval := e.land_complete && e.spool_ground_idle
      if retval && !e.continue_after_land && e.motors_armed then
        -- disarm (external) and keep the mission parked on this item
        (false, s)
      else (retval, s)

/-- `ModeAuto::verify_takeoff()` (landing-gear retraction is external). -/
def verify_takeoff (e : Env) : Bool := e.auto_takeoff_complete

/-- `ModeAuto::verify_nav_wp(cmd)`: reached destination, then the dwell
timer (completion tones are external). -/
def verify_nav_wp (cmd : Cmd) (s : AutoState) (e : Env) : Bool × AutoState :=
  if ¬e.reached_wp_destination then (false, s)
  else
    let s1 := if s.loiter_time = 0 then { s with loiter_time := e.now_ms } else s
    if s1.loiter_time_max ≤ (e.now_ms - s1.loiter_time) / 1000 then (true, s1)
    else (false, s1)

/-- `ModeAuto::verify_loiter_time(cmd)`. -/
def verify_loiter_time (cmd : Cmd) (s : AutoState) (e : Env) : Bool × AutoState :=
  if ¬e.reached_wp_destination then (false, s)
  else
    let s1 := if s.loiter_time = 0 then { s with loiter_time := e.now_ms } else s
    if s1.loiter_time_max ≤ (e.now_ms - s1.loiter_time) / 1000 then (true, s1)
    else (false, s1)

/-- `ModeAuto::verify_spline_wp(cmd)`. -/
def verify_spline_wp (cmd : Cmd) (s : AutoState) (e : Env) : Bool × AutoState :=
  if ¬e.reached_wp_destination then (false, s)
  else
    let s1 := if s.loiter_time = 0 then { s with loiter_time := e.now_ms } else s
    if s1.loiter_time_max ≤ (e.now_ms - s1.loiter_time) / 1000 then (true, s1)
    else (false, s1)

/-- `ModeAuto::verify_loiter_unlimited()`. -/
def verify_loiter_unlimited : Bool := false

/-- `ModeAuto::verify_loiter_to_alt()`. -/
def verify_loiter_to_alt (s : AutoState) : Bool :=
  s.loiter_to_alt.reached_destination_xy && s.loiter_to_alt.reached_alt

/-- `ModeAuto::verify_RTL()`: `rtl_state_final` is the external check
that the RTL submode is `FINAL_DESCENT` or `LAND`. -/
def verify_RTL (e : Env) : Bool :=
  e.rtl_state_complete && e.rtl_state_final && e.spool_ground_idle

/-- `ModeAuto::verify_nav_guided_enable(cmd)`. -/
def verify_nav_guided_enable (cmd : Cmd) (e : Env) : Bool :=
  if cmd.p1 = 0 then true else e.guided_limit_check

/-- `ModeAuto::verify_nav_delay(cmd)`. -/
def verify_nav_delay (s : AutoState) (e : Env) : Bool × AutoState :=
  if s.nav_delay_time_max_ms < e.now_ms - s.nav_delay_time_start_ms then
    (true, { s with nav_delay_time_max_ms := 0 })
  else (false, s)

/-- `ModeAuto::verify_nav_script_time()`. -/
def verify_nav_script_time (s : AutoState) (e : Env) : Bool :=
  s.nav_script_done ||
    (decide (0 < s.nav_script_timeout_s) &&
     decide (s.nav_script_timeout_s * 1000 < e.now_ms - s.nav_script_start_ms))

/-- `ModeAuto::verify_nav_attitude_time(cmd)`. -/
def verify_nav_attitude_time (cmd : Cmd) (s : AutoState) (e : Env) : Bool :=
  decide (cmd.attitude_time_sec * 1000 < e.now_ms - s.nav_att_start_ms)

/-- `ModeAuto::verify_wait_delay()`. -/
def verify_wait_delay (s : AutoState) (e : Env) : Bool × AutoState :=
  if (max s.condition_value 0).toNat < e.now_ms - s.condition_start then
    (true, { s with condition_value := 0 })
  else (false, s)

/-- `ModeAuto::verify_within_distance()`. -/
def verify_within_distance (s : AutoState) (e : Env) : Bool × AutoState :=
  if e.wp_distance_m < ((max s.condition_value 0 : Int) : ℚ) then
    (true, { s with condition_value := 0 })
  else (false, s)

/-- `ModeAuto::verify_yaw()`. -/
def verify_yaw (s : AutoState) (e : Env) : Bool × AutoState :=
  (e.yaw_reached_fixed, { s with yaw_mode := .FIXED })

/-- `ModeAuto::verify_command(cmd)`: the stale-callback guard, per-type
dispatch, and the trailing `send_mission_item_reached_message` (the last
component: whether that message was sent this call).  `NAV_LOITER_TO_ALT`
returns directly, skipping the message block. -/
def verify_command (cmd : Cmd) (s : AutoState) (e : Env) :
    Bool × AutoState × Bool :=
  if ¬e.flightmode_is_auto then (false, s, false)
  else
    match cmd.id with
    | .NAV_VTOL_TAKEOFF | .NAV_TAKEOFF =>
        let r := verify_takeoff e; (r, s, r)
    | .NAV_WAYPOINT => let p := verify_nav_wp cmd s e; (p.1, p.2, p.1)
    | .NAV_VTOL_LAND | .NAV_LAND => let p := verify_land s e; (p.1, p.2, p.1)
    | .NAV_PAYLOAD_PLACE =>
        let r := PayloadPlace.verify s.payload; (r, s, r)
    | .NAV_LOITER_UNLIM => (verify_loiter_unlimited, s, verify_loiter_unlimited)
    | .NAV_LOITER_TURNS => let p := verify_circle cmd s e; (p.1, p.2.1, p.1)
    | .NAV_LOITER_TIME => let p := verify_loiter_time cmd s e; (p.1, p.2, p.1)
    | .NAV_LOITER_TO_ALT => (verify_loiter_to_alt s, s, false)
    | .NAV_RETURN_TO_LAUNCH => let r := verify_RTL e; (r, s, r)
    | .NAV_SPLINE_WAYPOINT => let p := verify_spline_wp cmd s e; (p.1, p.2, p.1)
    | .NAV_GUIDED_ENABLE =>
        let r := verify_nav_guided_enable cmd e; (r, s, r)
    | .NAV_DELAY => let p := verify_nav_delay s e; (p.1, p.2, p.1)
    | .NAV_SCRIPT_TIME => let r := verify_nav_script_time s e; (r, s, r)
    | .NAV_ATTITUDE_TIME => let r := verify_nav_attitude_time cmd s e; (r, s, r)
    | .CONDITION_DELAY => let p := verify_wait_delay s e; (p.1, p.2, p.1)
    | .CONDITION_DISTANCE => let p := verify_within_distance s e; (p.1, p.2, p.1)
    | .CONDITION_YAW => let p := verify_yaw s e; (p.1, p.2, p.1)
    | .DO_CHANGE_SPEED | .DO_SET_HOME | .DO_SET_ROI_LOCATION
    | .DO_SET_ROI_NONE | .DO_SET_ROI | .DO_MOUNT_CONTROL | .DO_GUIDED_LIMITS
    | .DO_FENCE_ENABLE | .DO_WINCH | .DO_RETURN_PATH_START | .DO_LAND_START =>
        (true, s, true)
    | .UNKNOWN _ =>
        -- "Skipping invalid cmd" warning (external), then skip forward
        (true, s, true)

/-- A neutral location for concrete instances. -/
def baseLoc : Location := ⟨0, 0, 0, .ABOVE_HOME⟩

/-- A neutral environment for concrete instances. -/
def baseEnv : Env where
  flightmode_is_auto := true
  disarmed_or_landed := false
  interlock := true
  now_ms := 0
  mission_present := true
  motors_armed := false
  land_complete := false
  land_complete_maybe := false
  mission_starts_with_takeoff := true
  reached_wp_destination := false
  reached_wp_NE := false
  current_lat := 0
  current_lng := 0
  current_alt := 0
  pos_estimate_z_cm := 0
  terrain_offset_cm := none
  alt_conv := fun _ _ => none
  set_wp_destination_ok := fun _ => true
  wp_yaw_behavior_none := false
  handler_default_loc := baseLoc
  auto_takeoff_complete := false
  spool_ground_idle := false
  continue_after_land := false
  rtl_state_complete := false
  rtl_state_final := false
  guided_limit_check := false
  yaw_reached_fixed := false
  wp_distance_m := 0
  angle_total_rad := 0
  option_takeoff_no_throttle := false
  gripper_valid := false
  gripper_released := false
  thrust_level := 0
  pos_desired_U_cm := 0
  vel_desired_z := 0
  pldp_descent_speed_ms := 0
  land_speed := 0
  wpnav_speed_down_cms := 0
  pldp_thrust_placed_fraction := 0
  pldp_range_finder_maximum_m := 0
  rangefinder_enabled := false
  rangefinder_alt_ok := false
  rangefinder_glitch_count := 0
  rangefinder_alt_cm := 0
  pldp_delay_s := 0
  max_speed_up_cms := 0
  max_accel_U_cmss := 1
  dist_to_edge_cm := 0
  dist_to_center_cm := 0
  circle_radius_cm := 0

/-- A fresh `PayloadPlace` state (command just dispatched). -/
def basePP : PayloadPlace := ⟨.FlyToLocation, 0, 0, 0, 0, 0, 0⟩

/-- A fresh `LoiterToAlt` state. -/
def baseLTA : LoiterToAltState := ⟨0, false, false, false, 0⟩

/-- A neutral dispatcher state for concrete instances. -/
def baseState : AutoState where
  _mode := .LOITER
  auto_RTL := false
  yaw_mode := .HOLD
  desired_speed_override := ⟨0, 0, 0⟩
  waiting_to_start := false
  loiter_time := 0
  loiter_time_max := 0
  loiter_to_alt := baseLTA
  circle_last_num_complete := 0
  land_state := .FlyToLocation
  condition_start := 0
  condition_value := 0
  nav_delay_time_start_ms := 0
  nav_delay_time_max_ms := 0
  nav_script_done := false
  nav_script_start_ms := 0
  nav_script_timeout_s := 0
  nav_att_start_ms := 0
  payload := basePP

/-- A neutral mission command. -/
def baseCmd : Cmd := ⟨.NAV_WAYPOINT, 0, 0, baseLoc, 0, 0, 0, false⟩

/-- A dispatcher state carrying ROI yaw and stale speed overrides, as
left over from a previous mission run. -/
def c4SuccState : AutoState :=
  { baseState with
    auto_RTL := true,
    yaw_mode := .ROI,
    desired_speed_override := ⟨1, 2, 3⟩ }

/-- Altitude-conversion oracle that succeeds only between identical
frames (no terrain data): the identity conversion. -/
def convSameFrame : Location → AltFrame → Option Int :=
  fun l f => if l.frame = f then some l.alt else none

/-- A Circle command requesting 2 turns. -/
def c6Cmd : Cmd := { baseCmd with id := .NAV_LOITER_TURNS, loiter_turns := 2 }

/-- The dispatcher state right after `do_circle` started circling:
`circle_last_num_complete` = −1. -/
def c6State : AutoState :=
  { baseState with _mode := .CIRCLE, circle_last_num_complete := -1 }

/-- Three `verify_circle` polls at accumulated angles of 0, 1.5 and
2.0 revolutions. -/
def c6Envs : List Env :=
  [baseEnv,
   { baseEnv with angle_total_rad := M_2PI * (3/2) },
   { baseEnv with angle_total_rad := M_2PI * 2 }]

/-- A command location with lat = 0 but lng ≠ 0. -/
def c7CexCmdLoc : Location := ⟨0, 20, 500, .ABOVE_HOME⟩

/-- A default location with nonzero fields. -/
def c7CexDefLoc : Location := ⟨10, 30, 300, .ABOVE_HOME⟩

/-- The spec's waypoint-resolution example: command lat 0, lon 0,
alt 500. -/
def c7wCmdLoc : Location := ⟨0, 0, 500, .ABOVE_HOME⟩

/-- The spec's waypoint-resolution example default: (10, 20, 300). -/
def c7wDefLoc : Location := ⟨10, 20, 300, .ABOVE_HOME⟩

/-- A takeoff command location: 900 cm above origin. -/
def c8DestLoc : Location := ⟨0, 0, 900, .ABOVE_ORIGIN⟩

/-- Takeoff environment: landed, current altitude 1000.5 cm (a value a
float altitude estimate can take), target resolving to 900 cm. -/
def c8CexEnv : Env :=
  { baseEnv with
    pos_estimate_z_cm := 2001/2,
    land_complete := true,
    alt_conv := fun _ f => if f = AltFrame.ABOVE_ORIGIN then some 900 else none }

/-- Takeoff environment of the spec's example: landed, current altitude
1000 cm, computed target 900 cm. -/
def c8wEnv : Env :=
  { baseEnv with
    pos_estimate_z_cm := 1000,
    land_complete := true,
    alt_conv := fun _ f => if f = AltFrame.ABOVE_ORIGIN then some 900 else none }

lemma floatToInt32_intCast (m : Int) : floatToInt32 ((m : ℚ)) = m := by
  unfold floatToInt32
  split_ifs
  · exact Int.floor_intCast m
  · rw [← Int.cast_neg, Int.floor_intCast]
    ring

lemma ppState_idx_le (t : PPState) : t.idx ≤ 8 := by
  cases t <;> simp [PPState.idx]

lemma loc_from_cmd_latlng (c d : Location)
    (conv : Location → AltFrame → Option Int) :
    (loc_from_cmd c d conv).lat = (if c.lat = 0 ∧ c.lng = 0 then d.lat else c.lat) ∧
    (loc_from_cmd c d conv).lng = (if c.lat = 0 ∧ c.lng = 0 then d.lng else c.lng) := by
  unfold loc_from_cmd
  by_cases hll : c.lat = 0 ∧ c.lng = 0 <;>
    cases hc : conv d c.frame <;>
      simp [hll, hc] <;> split_ifs <;> simp

lemma loc_from_cmd_alt (c d : Location)
    (conv : Location → AltFrame → Option Int) :
    (c.alt ≠ 0 →
      (loc_from_cmd c d conv).alt = c.alt ∧ (loc_from_cmd c d conv).frame = c.frame) ∧
    (c.alt = 0 → conv d c.frame = none →
      (loc_from_cmd c d conv).alt = d.alt ∧ (loc_from_cmd c d conv).frame = d.frame) ∧
    (∀ a, c.alt = 0 → conv d c.frame = some a →
      (loc_from_cmd c d conv).alt = a ∧ (loc_from_cmd c d conv).frame = c.frame) := by
  unfold loc_from_cmd
  by_cases hll : c.lat = 0 ∧ c.lng = 0
  · cases hc : conv d c.frame <;>
      refine ⟨fun h => ?_, fun h hn => ?_, fun a ha hs => ?_⟩ <;>
        simp_all
  · simp only [if_neg hll]
    cases hc : conv d c.frame <;>
      refine ⟨fun h => ?_, fun h hn => ?_, fun a ha hs => ?_⟩ <;>
        simp_all

lemma ppAscentCase_state (s : PayloadPlace) (e : Env) :
    (ppAscentCase s e).state = s.state ∨ (ppAscentCase s e).state = .Done := by
  simp only [ppAscentCase]
  split_ifs <;> simp

lemma ppAscentCase_idx (s : PayloadPlace) (e : Env) :
    s.state.idx ≤ (ppAscentCase s e).state.idx := by
  rcases ppAscentCase_state s e with h | h <;> rw [h]
  exact ppState_idx_le _

lemma ppAscentStartCase_idx (s : PayloadPlace) (e : Env) :
    7 ≤ (ppAscentStartCase s e).state.idx := by
  simp only [ppAscentStartCase]
  rcases ppAscentCase_state { s with state := .Ascent } e with h | h <;>
    simp [h, PPState.idx]

lemma ppDelayCase_idx (s : PayloadPlace) (e : Env) (h : s.state.idx ≤ 7) :
    s.state.idx ≤ (ppDelayCase s e).state.idx := by
  simp only [ppDelayCase]
  split_ifs
  · exact Nat.le_refl _
  · exact le_trans h (ppAscentStartCase_idx s e)

lemma ppReleasingCase_idx (s : PayloadPlace) (e : Env) (h : s.state.idx ≤ 5) :
    s.state.idx ≤ (ppReleasingCase s e).state.idx := by
  simp only [ppReleasingCase]
  split_ifs
  · exact Nat.le_refl _
  · refine le_trans h ?_
    have h2 := ppDelayCase_idx { s with state := .Delay } e (by simp [PPState.idx])
    simpa [PPState.idx] using h2

lemma ppReleaseCase_state (s : PayloadPlace) (e : Env) :
    (ppReleaseCase s e).state = .Releasing ∨ (ppReleaseCase s e).state = .Delay := by
  simp only [ppReleaseCase]
  split_ifs <;> simp

lemma ppDescentCase_state (s : PayloadPlace) (e : Env) :
    (ppDescentCase s e).state = s.state ∨ (ppDescentCase s e).state = .Ascent_Start ∨
      (ppDescentCase s e).state = .Release := by
  simp only [ppDescentCase]
  split_ifs <;> simp

lemma ppMainSwitch_idx (s : PayloadPlace) (e : Env) :
    s.state.idx ≤ (ppMainSwitch s e).state.idx := by
  cases hs : s.state
  case FlyToLocation =>
    simp only [ppMainSwitch, hs]
    split_ifs <;> simp [hs, ppStartDescent, PPState.idx]
  case Descent_Start =>
    simp only [ppMainSwitch, hs, ppDescentStartCase]
    rcases ppDescentCase_state
        { s with descent_established_time_ms := e.now_ms,
                 descent_start_altitude_cm := e.pos_desired_U_cm,
                 descent_speed_cms :=
                   min (if 0 < e.pldp_descent_speed_ms then
                          e.pldp_descent_speed_ms * 100
                        else |e.land_speed|) e.wpnav_speed_down_cms,
                 descent_thrust_level := 1, state := .Descent } e with h | h | h <;>
      simp [h, hs, PPState.idx]
  case Descent =>
    simp only [ppMainSwitch, hs]
    rcases ppDescentCase_state s e with h | h | h <;> simp [h, hs, PPState.idx]
  case Release =>
    simp only [ppMainSwitch, hs]
    rcases ppReleaseCase_state s e with h | h <;> simp [h, hs, PPState.idx]
  case Releasing =>
    simp only [ppMainSwitch, hs]
    have h2 := ppReleasingCase_idx s e (by simp [hs, PPState.idx])
    simpa [hs] using h2
  case Delay =>
    simp only [ppMainSwitch, hs]
    have h2 := ppDelayCase_idx s e (by simp [hs, PPState.idx])
    simpa [hs] using h2
  case Ascent_Start =>
    simp only [ppMainSwitch, hs]
    exact le_trans (by simp [hs, PPState.idx]) (ppAscentStartCase_idx s e)
  case Ascent =>
    simp only [ppMainSwitch, hs]
    have h2 := ppAscentCase_idx s e
    simpa [hs] using h2
  case Done =>
    simp [ppMainSwitch, hs]

lemma ppLandedBlock_idx (s : PayloadPlace) (e : Env) :
    s.state.idx ≤ (ppLandedBlock s e).state.idx := by
  simp only [ppLandedBlock]
  split_ifs
  · cases hs : s.state <;> simp [hs, PPState.idx]
  · exact Nat.le_refl _

lemma ppGripperBlock_idx (s : PayloadPlace) (e : Env) :
    s.state.idx ≤ (ppGripperBlock s e).state.idx := by
  simp only [ppGripperBlock]
  split_ifs
  · cases hs : s.state <;> simp [hs, PPState.idx]
  · exact Nat.le_refl _

/-- Claim C2 (corrected, amended part): every call of `PayloadPlace::run`
moves the state monotonically forward along the documented order
FlyToLocation, Descent_Start, Descent, Release, Releasing, Delay,
Ascent_Start, Ascent, Done — the state's position in that order never
decreases.  (The claim's "exactly two abort transitions, both to
Ascent_Start; no other skipping edge" is refuted by `C2_cex`: the
manual-release aborts skip from FlyToLocation / Descent_Start straight
to Done, and Release skips Releasing when no gripper is fitted.) -/
theorem C2_state_monotone (s : PayloadPlace) (e : Env) :
    s.state.idx ≤ (PayloadPlace.runFull s e).1.state.idx := by
  by_cases hd : e.disarmed_or_landed = true
  · simp [PayloadPlace.runFull, hd]
  · have hfst : (PayloadPlace.runFull s e).1 =
        ppMainSwitch (ppGripperBlock (ppLandedBlock s e) e) e := by
      simp [PayloadPlace.runFull, hd]
    rw [hfst]
    exact le_trans (ppLandedBlock_idx s e)
      (le_trans (ppGripperBlock_idx (ppLandedBlock s e) e)
        (ppMainSwitch_idx (ppGripperBlock (ppLandedBlock s e) e) e))

/-- Claim C2 (counterexample): with the gripper manually opened, one
call of `PayloadPlace::run` on an armed, airborne vehicle in
`FlyToLocation` jumps the state directly to `Done` — a skipping
transition (index 0 to index 8) that does not go to `Ascent_Start`, so
the two aborts to `Ascent_Start` are not the only non-adjacent edges. -/
theorem C2_cex :
    (PayloadPlace.runFull basePP
        { baseEnv with gripper_valid := true, gripper_released := true }).1.state =
      PPState.Done ∧
    basePP.state = PPState.FlyToLocation ∧
    PPState.Done ≠ PPState.Ascent_Start ∧
    PPState.idx .FlyToLocation + 1 < PPState.idx .Done := by
  refine ⟨?_, rfl, by decide, by decide⟩
  simp [PayloadPlace.runFull, baseEnv, basePP, ppLandedBlock, ppGripperBlock,
        ppMainSwitch]

/-- Claim C1 (corrected, amended part): for the submodes whose tick
functions live in `mode_auto.cpp` and carry the guard — WP,
CircleMoveToEdge, Land, Loiter, LoiterToAlt, NavAttitudeTime and
PayloadPlace — a `ModeAuto::run()` dispatch while disarmed-or-landed
commands exactly the safe-ground-handling state and issues no thrust
command.  (Circle has no such guard — see `C1_cex`; Takeoff, RTL and
NavGuided delegate to controllers outside this file.) -/
theorem C1_guarded_ticks (s : AutoState) (e : Env)
    (hd : e.disarmed_or_landed = true)
    (hm : s._mode = SubMode.WP ∨ s._mode = SubMode.CIRCLE_MOVE_TO_EDGE ∨
          s._mode = SubMode.LAND ∨ s._mode = SubMode.LOITER ∨
          s._mode = SubMode.LOITER_TO_ALT ∨ s._mode = SubMode.NAV_ATTITUDE_TIME ∨
          s._mode = SubMode.NAV_PAYLOAD_PLACE) :
    (runTick s e).2 = [Effect.safeGroundHandling] := by
  rcases hm with h | h | h | h | h | h | h <;>
    simp [runTick, h, wp_run, land_run, loiter_run, loiter_to_alt_run,
          nav_attitude_time_run, PayloadPlace.runFull, hd]

/-- Claim C1 (witness): concrete disarmed WP tick. -/
theorem C1_witness :
    (runTick { baseState with _mode := SubMode.WP }
        { baseEnv with disarmed_or_landed := true }).2 =
      [Effect.safeGroundHandling] :=
  C1_guarded_ticks _ _ rfl (Or.inl rfl)

/-- Claim C1 (counterexample): in the Circle submode the tick dispatched
while disarmed-or-landed does not command safe ground handling — it
unconditionally runs the circle controller and sends a thrust-vector
command, because `ModeAuto::circle_run` has no disarmed-or-landed
guard. -/
theorem C1_cex :
    Effect.safeGroundHandling ∉
      (runTick { baseState with _mode := SubMode.CIRCLE }
        { baseEnv with disarmed_or_landed := true }).2 ∧
    Effect.inputThrustVectorHeading ∈
      (runTick { baseState with _mode := SubMode.CIRCLE }
        { baseEnv with disarmed_or_landed := true }).2 := by
  constructor <;> simp [runTick, circle_run]

/-- Claim C3 (confirmed): in the loiter-to-altitude tick (armed, with
interlock, past or at horizontal arrival) the reached-altitude flag is
true after the tick exactly when it was already true, the new altitude
error satisfies |error| < 5 cm, or the product of the new and previous
errors is negative (sign flip / overshoot) — so in particular once true
it stays true (second conjunct, which holds for every tick
unconditionally). -/
theorem C3_reached_alt (s : AutoState) (e : Env) :
    (e.disarmed_or_landed = false → e.interlock = true →
      (s.loiter_to_alt.reached_destination_xy = true ∨ e.reached_wp_NE = true) →
      ((loiter_to_alt_run s e).1.loiter_to_alt.reached_alt = true ↔
        (s.loiter_to_alt.reached_alt = true ∨
         |e.current_alt - s.loiter_to_alt.alt| < 5 ∨
         (e.current_alt - s.loiter_to_alt.alt) * s.loiter_to_alt.alt_error_cm < 0))) ∧
    (s.loiter_to_alt.reached_alt = true →
      (loiter_to_alt_run s e).1.loiter_to_alt.reached_alt = true) := by
  constructor
  · intro hd hi hxy
    rcases hxy with hx | hw
    · simp only [loiter_to_alt_run, hd, hi, hx]
      split_ifs <;> simp_all
    · by_cases hx : s.loiter_to_alt.reached_destination_xy = true
      · simp only [loiter_to_alt_run, hd, hi, hx]
        split_ifs <;> simp_all
      · simp only [loiter_to_alt_run, hd, hi, hw,
          Bool.not_eq_true] at hx ⊢
        simp only [hx]
        split_ifs <;> simp_all
  · intro hr
    simp only [loiter_to_alt_run]
    split_ifs <;> simp_all

/-- Claim C3 (witness): an overshoot from error +20 cm to −10 cm in one
tick sets the reached flag even though the new |error| = 10 ≥ 5 cm. -/
theorem C3_witness :
    (loiter_to_alt_run
        { baseState with loiter_to_alt := ⟨0, true, true, false, 20⟩ }
        { baseEnv with current_alt := -10 }).1.loiter_to_alt.reached_alt = true ∧
    ¬(|(-10 : Int) - 0| < 5) := by
  refine ⟨?_, by decide⟩
  exact ((C3_reached_alt
      { baseState with loiter_to_alt := ⟨0, true, true, false, 20⟩ }
      { baseEnv with current_alt := -10 }).1 rfl rfl (Or.inl rfl)).mpr
    (Or.inr (Or.inr (by decide)))

/-- Claim C4 (counterexample): `ModeAuto::init` with no mission present
and `ignore_checks` false returns false but is not free of state
change — it unconditionally clears the auto-RTL pseudo-mode flag first
(line `auto_RTL = false` precedes the mission-present guard). -/
theorem C4_cex :
    (ModeAuto_init { baseState with auto_RTL := true }
        { baseEnv with mission_present := false } false).1 = false ∧
    (ModeAuto_init { baseState with auto_RTL := true }
        { baseEnv with mission_present := false } false).2.auto_RTL ≠
      ({ baseState with auto_RTL := true } : AutoState).auto_RTL := by
  constructor <;> simp [ModeAuto_init]

/-- Claim C4 (amended): `init` returns false — with no state change
other than clearing the auto-RTL flag — when no mission is present and
checks are not bypassed, and likewise when armed, land-complete and the
first mission command is not a takeoff; on success it sets the submode
to Loiter, replaces a carried-over ROI yaw mode with Hold, resets the
speed overrides to unset and sets the waiting-to-start flag. -/
theorem C4_init_behavior (s : AutoState) (e : Env) (ic : Bool) :
    ((e.mission_present || ic) = false →
      ModeAuto_init s e ic = (false, { s with auto_RTL := false })) ∧
    ((e.mission_present || ic) = true →
      (e.motors_armed && e.land_complete && !e.mission_starts_with_takeoff) = true →
      ModeAuto_init s e ic = (false, { s with auto_RTL := false })) ∧
    ((e.mission_present || ic) = true →
      (e.motors_armed && e.land_complete && !e.mission_starts_with_takeoff) = false →
      ModeAuto_init s e ic =
        (true, { s with
                 auto_RTL := false, _mode := .LOITER,
                 yaw_mode := if s.yaw_mode = .ROI then .HOLD else s.yaw_mode,
                 desired_speed_override := ⟨0, 0, 0⟩,
                 waiting_to_start := true })) := by
  refine ⟨fun h1 => ?_, fun h1 h2 => ?_, fun h1 h2 => ?_⟩
  · simp [ModeAuto_init, h1]
  · simp [ModeAuto_init, h1, h2]
  · by_cases hy : s.yaw_mode = .ROI <;> simp [ModeAuto_init, h1, h2, hy]

/-- Claim C4 (witness): a successful init from a state carrying an ROI
yaw mode and stale speed overrides. -/
theorem C4_witness :
    (ModeAuto_init c4SuccState baseEnv false).1 = true ∧
    (ModeAuto_init c4SuccState baseEnv false).2._mode = SubMode.LOITER ∧
    (ModeAuto_init c4SuccState baseEnv false).2.yaw_mode = YawMode.HOLD ∧
    (ModeAuto_init c4SuccState baseEnv false).2.desired_speed_override = ⟨0, 0, 0⟩ ∧
    (ModeAuto_init c4SuccState baseEnv false).2.waiting_to_start = true := by
  have h := (C4_init_behavior c4SuccState baseEnv false).2.2 rfl rfl
  rw [h]
  exact ⟨rfl, rfl, rfl, rfl, rfl⟩

/-- Claim C5 (confirmed): whenever the currently active flight mode is
not the Auto dispatcher, `verify_command` returns false for every
command, touches no state and sends no mission-item-reached message. -/
theorem C5_stale_mode_guard (cmd : Cmd) (s : AutoState) (e : Env)
    (h : e.flightmode_is_auto = false) :
    verify_command cmd s e = (false, s, false) := by
  simp [verify_command, h]

/-- Claim C5 (witness): concrete stale callback. -/
theorem C5_witness :
    verify_command baseCmd baseState { baseEnv with flightmode_is_auto := false } =
      (false, baseState, false) :=
  C5_stale_mode_guard _ _ _ rfl

/-- Claim C6 (counterexample): polling a 2-turn circle at 0, 1.5 and
2.0 accumulated revolutions returns false, false, true — but emits
THREE "starting circle k" notifications, k = 1, 2, 3: the completing
poll also crosses a whole revolution (truncated count 1 → 2) and so
sends "starting circle 3/2", contradicting "exactly one notification
per whole revolution crossed (k = 1, 2)". -/
theorem C6_cex :
    (circlePolls c6Cmd c6State c6Envs).2.1 = [false, false, true] ∧
    (circlePolls c6Cmd c6State c6Envs).2.2 = [1, 2, 3] := by
  have e2 : |M_2PI * (3/2) / M_2PI| = (3/2 : ℚ) := by norm_num [M_2PI]
  have e3 : |M_2PI * 2 / M_2PI| = (2 : ℚ) := by norm_num [M_2PI]
  have f0 : floatToInt32 (-1 : ℚ) = -1 := by norm_num [floatToInt32]
  have fz : floatToInt32 (0 : ℚ) = 0 := by norm_num [floatToInt32]
  have f2 : floatToInt32 (3/2 : ℚ) = 1 := by norm_num [floatToInt32]
  have f3 : floatToInt32 (2 : ℚ) = 2 := by norm_num [floatToInt32]
  have d0 : ¬((2 : ℚ) ≤ 0) := by norm_num
  have d2 : ¬((2 : ℚ) ≤ 3/2) := by norm_num
  have d3 : (2 : ℚ) ≤ 2 := le_refl _
  simp [circlePolls, verify_circle, c6Cmd, c6State, c6Envs, baseCmd, baseState,
        baseEnv, e2, e3, f0, fz, f2, f3, d0, d2, d3]

/-- Claim C6 (amended): while moving to the edge every poll returns
false (and sends nothing); once circling, `verify_circle` returns true
exactly when the revolution count |angle|/2π has reached the requested
turns, and emits exactly one "starting circle k" notification on each
poll where the truncated revolution count differs from the stored one,
with k = (truncated count) + 1 — so over a mission the notifications
are k = 1, …, turns + 1, the last coinciding with the completing
poll. -/
theorem C6_circle_verify (cmd : Cmd) (s : AutoState) (e : Env) :
    (s._mode = SubMode.CIRCLE_MOVE_TO_EDGE →
      (verify_circle cmd s e).1 = false ∧ (verify_circle cmd s e).2.2 = none) ∧
    (s._mode ≠ SubMode.CIRCLE_MOVE_TO_EDGE →
      (verify_circle cmd s e).1 =
        decide (cmd.loiter_turns ≤ |e.angle_total_rad / M_2PI|) ∧
      (verify_circle cmd s e).2.2 =
        (if floatToInt32 |e.angle_total_rad / M_2PI| ≠
              floatToInt32 s.circle_last_num_complete
         then some ((floatToInt32 |e.angle_total_rad / M_2PI|).toNat + 1)
         else none)) := by
  constructor
  · intro h
    simp [verify_circle, h]
  · intro h
    simp only [verify_circle]
    rw [if_neg h]
    constructor
    · split_ifs <;> rfl
    · split_ifs with h2 <;> simp [h2]

/-- Claim C6 (witness): first circling poll after `do_circle`
(stored count −1, accumulated angle 0): not complete, one notification
"starting circle 1". -/
theorem C6_witness :
    (verify_circle c6Cmd c6State baseEnv).1 = false ∧
    (verify_circle c6Cmd c6State baseEnv).2.2 = some 1 := by
  have h := (C6_circle_verify c6Cmd c6State baseEnv).2 (by decide)
  have e0 : |baseEnv.angle_total_rad / M_2PI| = (0 : ℚ) := by
    norm_num [baseEnv, M_2PI]
  have f0 : floatToInt32 (0 : ℚ) = 0 := by norm_num [floatToInt32]
  have fm : floatToInt32 (-1 : ℚ) = -1 := by norm_num [floatToInt32]
  constructor
  · rw [h.1, e0]
    norm_num [c6Cmd, baseCmd]
  · rw [h.2, e0]
    simp [c6State, baseState, f0, fm]

/-- Claim C7 (counterexample): a command with lat = 0 but lng = 20 keeps
lat = 0 — the zero latitude does NOT inherit the default's latitude 10,
because the source replaces lat and lng only when both are zero; the
fields are not resolved independently. -/
theorem C7_cex :
    c7CexCmdLoc.lat = 0 ∧ c7CexDefLoc.lat = 10 ∧
    (loc_from_cmd c7CexCmdLoc c7CexDefLoc convSameFrame).lat = 0 := by
  refine ⟨rfl, rfl, ?_⟩
  simp [loc_from_cmd, c7CexCmdLoc, c7CexDefLoc, convSameFrame]

/-- Claim C7 (amended): `loc_from_cmd` inherits lat and lng from the
default jointly — exactly when both are zero — while the altitude is
resolved independently: a zero altitude takes the default's altitude
converted into the command's frame, falling back to copying the
default's altitude and frame when conversion fails; nonzero fields are
kept. -/
theorem C7_loc_resolution (c d : Location)
    (conv : Location → AltFrame → Option Int) :
    ((c.lat = 0 ∧ c.lng = 0) →
      (loc_from_cmd c d conv).lat = d.lat ∧ (loc_from_cmd c d conv).lng = d.lng) ∧
    (¬(c.lat = 0 ∧ c.lng = 0) →
      (loc_from_cmd c d conv).lat = c.lat ∧ (loc_from_cmd c d conv).lng = c.lng) ∧
    (c.alt ≠ 0 →
      (loc_from_cmd c d conv).alt = c.alt ∧ (loc_from_cmd c d conv).frame = c.frame) ∧
    (c.alt = 0 → ∀ a, conv d c.frame = some a →
      (loc_from_cmd c d conv).alt = a ∧ (loc_from_cmd c d conv).frame = c.frame) ∧
    (c.alt = 0 → conv d c.frame = none →
      (loc_from_cmd c d conv).alt = d.alt ∧ (loc_from_cmd c d conv).frame = d.frame) := by
  have hlat := loc_from_cmd_latlng c d conv
  have halt := loc_from_cmd_alt c d conv
  refine ⟨fun h => ?_, fun h => ?_, fun h => ?_, fun h a ha => ?_, fun h hn => ?_⟩
  · rw [hlat.1, hlat.2, if_pos h, if_pos h]
    exact ⟨rfl, rfl⟩
  · rw [hlat.1, hlat.2, if_neg h, if_neg h]
    exact ⟨rfl, rfl⟩
  · exact halt.1 h
  · exact halt.2.2 a h ha
  · exact halt.2.1 h hn

/-- Claim C7 (witness): the spec's example — (0, 0, 500) resolved
against default (10, 20, 300) gives (10, 20, 500). -/
theorem C7_witness :
    (loc_from_cmd c7wCmdLoc c7wDefLoc convSameFrame).lat = 10 ∧
    (loc_from_cmd c7wCmdLoc c7wDefLoc convSameFrame).lng = 20 ∧
    (loc_from_cmd c7wCmdLoc c7wDefLoc convSameFrame).alt = 500 := by
  have h := C7_loc_resolution c7wCmdLoc c7wDefLoc convSameFrame
  exact ⟨(h.1 (by decide)).1, (h.1 (by decide)).2, (h.2.2.1 (by decide)).1⟩

/-- Claim C8 (counterexample): with the (float) current altitude
1000.5 cm, landed, and a computed target of 900 cm, the clamped target
is 1100 cm — the `int32_t` assignment truncates `current + 100`, so the
result is NOT "at least the current altitude plus 100 cm"
(1100 < 1100.5). -/
theorem C8_cex :
    (takeoff_start_target c8DestLoc c8CexEnv).1 = 1100 ∧
    ¬(c8CexEnv.pos_estimate_z_cm + 100 ≤
        ((takeoff_start_target c8DestLoc c8CexEnv).1 : ℚ)) := by
  have h : (takeoff_start_target c8DestLoc c8CexEnv).1 = 1100 := by
    norm_num [takeoff_start_target, c8DestLoc, c8CexEnv, baseEnv, floatToInt32]
  refine ⟨h, ?_⟩
  rw [h]
  norm_num [c8CexEnv, baseEnv]

/-- Claim C8 (amended): the takeoff altitude target is clamped to at
least the integer truncation of current-altitude + 100 cm when
land-complete (plus 0 cm otherwise; in the terrain-relative branch the
current altitude is first shifted by the terrain offset); whenever the
current altitude is a whole number of centimetres — as in the spec's
1000 cm example — this is exactly "at least current + 100". -/
theorem C8_takeoff_clamp (dest : Location) (e : Env) :
    (¬(dest.frame = AltFrame.ABOVE_TERRAIN ∧ e.terrain_offset_cm.isSome = true) →
      floatToInt32 (e.pos_estimate_z_cm + (if e.land_complete then 100 else 0)) ≤
        (takeoff_start_target dest e).1) ∧
    (∀ t : ℚ, dest.frame = AltFrame.ABOVE_TERRAIN → e.terrain_offset_cm = some t →
      floatToInt32 (e.pos_estimate_z_cm - t + (if e.land_complete then 100 else 0)) ≤
        (takeoff_start_target dest e).1) ∧
    (∀ n : Int, e.pos_estimate_z_cm = (n : ℚ) → e.land_complete = true →
      ¬(dest.frame = AltFrame.ABOVE_TERRAIN ∧ e.terrain_offset_cm.isSome = true) →
      n + 100 ≤ (takeoff_start_target dest e).1) := by
  refine ⟨fun h => ?_, fun t h1 h2 => ?_, fun n hn hl h => ?_⟩
  · simp only [takeoff_start_target, if_neg h]
    exact le_max_right _ _
  · simp only [takeoff_start_target, h1, h2, if_pos, Option.isSome_some,
      and_true, Option.getD_some]
    exact le_max_right _ _
  · have h0 := (by
      simp only [takeoff_start_target, if_neg h]
      exact le_max_right _ _ :
      floatToInt32 (e.pos_estimate_z_cm + (if e.land_complete then 100 else 0)) ≤
        (takeoff_start_target dest e).1)
    have h1 : floatToInt32 (e.pos_estimate_z_cm +
        (if e.land_complete then 100 else 0)) = n + 100 := by
      rw [hn, hl, if_pos rfl]
      have : ((n : ℚ) + 100) = ((n + 100 : Int) : ℚ) := by push_cast; ring
      rw [this, floatToInt32_intCast]
    rw [h1] at h0
    exact h0

/-- Claim C8 (witness): the spec's example — current altitude 1000 cm,
computed target 900 cm, landed — yields a clamped target of at least
1100 cm. -/
theorem C8_witness :
    (1000 : Int) + 100 ≤ (takeoff_start_target c8DestLoc c8wEnv).1 :=
  (C8_takeoff_clamp c8DestLoc c8wEnv).2.2 1000 (by norm_num [c8wEnv, baseEnv])
    rfl (by decide)

/-- Claim C9 (confirmed): when `do_loiter_to_alt` cannot convert the
command's target altitude to the above-home frame it sets both the
reached-destination-xy and reached-altitude flags, leaves the submode
whatever `do_loiter_unlimited` left (never entering `LOITER_TO_ALT`),
and every subsequent `verify_loiter_to_alt` poll reports the command
complete. -/
theorem C9_lta_alt_fail (cmd : Cmd) (s : AutoState) (e : Env)
    (h : e.alt_conv (lta_target_loc cmd e) .ABOVE_HOME = none) :
    (do_loiter_to_alt cmd s e).loiter_to_alt.reached_destination_xy = true ∧
    (do_loiter_to_alt cmd s e).loiter_to_alt.reached_alt = true ∧
    (do_loiter_to_alt cmd s e)._mode = (do_loiter_unlimited cmd s e)._mode ∧
    verify_loiter_to_alt (do_loiter_to_alt cmd s e) = true := by
  simp [do_loiter_to_alt, h, verify_loiter_to_alt]

/-- Claim C9 (witness): concrete failing conversion (no terrain data at
all). -/
theorem C9_witness :
    (do_loiter_to_alt baseCmd baseState baseEnv).loiter_to_alt.reached_alt = true ∧
    verify_loiter_to_alt (do_loiter_to_alt baseCmd baseState baseEnv) = true :=
  ⟨(C9_lta_alt_fail baseCmd baseState baseEnv rfl).2.1,
   (C9_lta_alt_fail baseCmd baseState baseEnv rfl).2.2.2⟩

/-- Claim C10 (confirmed): `verify_command` sends the
mission-item-reached message exactly when it reports the command
complete, for every command type except `NAV_LOITER_TO_ALT`, which
returns its result directly and never sends the message. -/
theorem C10_reached_message (cmd : Cmd) (s : AutoState) (e : Env) :
    (cmd.id = MavCmd.NAV_LOITER_TO_ALT →
      (verify_command cmd s e).2.2 = false) ∧
    (cmd.id ≠ MavCmd.NAV_LOITER_TO_ALT →
      (verify_command cmd s e).2.2 = (verify_command cmd s e).1) := by
  constructor
  · intro h
    by_cases hf : e.flightmode_is_auto = true <;> simp [verify_command, h, hf]
  · intro h
    by_cases hf : e.flightmode_is_auto = true
    · cases hc : cmd.id <;> simp_all [verify_command]
    · simp [verify_command, hf]

/-- Claim C10 (witness): a completing loiter-to-alt poll sends nothing;
an ordinary waypoint poll sends the message exactly when complete. -/
theorem C10_witness :
    (verify_command { baseCmd with id := .NAV_LOITER_TO_ALT }
        baseState baseEnv).2.2 = false ∧
    (verify_command baseCmd baseState baseEnv).2.2 =
      (verify_command baseCmd baseState baseEnv).1 :=
  ⟨(C10_reached_message _ _ _).1 rfl,
   (C10_reached_message _ _ _).2 (by decide)⟩

end ArduAuto
